import Mathlib

/-!
Verification development for the `copile` repository
(`copile/copilation.py`, `copile/copilation_errors.py`, `copile/system_messages.py`).

The Python code is shallowly embedded below.  Python strings are modelled as
Lean `String`s operated on through helper functions that mirror the exact
Python `str` primitives used by the code (`in`, `startswith`, `endswith`,
slicing, `split`, `strip`).  External effects are modelled explicitly:

* the OpenAI chat-completion service is an `Oracle`, a response for every
  call index; every completed call is recorded in a query log so that claims
  about which oracle calls are (not) made become statements about the log;
* `ast.parse` is an abstract parser `String → Option PyAst` carried by the
  environment (`none` models a `SyntaxError`); the Python AST is modelled by
  the mutual inductive `PyAst`/`PyAstList`, which records exactly the shape
  that `check_for_blacklisted_functions_used` inspects (call expressions,
  bare identifiers, attribute accesses, and generic nodes with children);
* `exec`-based loading of a candidate (`_source_to_object` together with the
  cache write, whose failures the code treats identically) is an abstract
  `String → ExecResult` in the environment;
* the two denylist files (`module_blacklist.txt`, `function_blacklist.txt`,
  read by `load_list` on every gate invocation) and the cached callable
  found by `_get_existing_copilation` are fields of the environment.

Exceptions are modelled with `Except`: a `.error` value is a raised Python
exception propagating to the caller.
-/

namespace Copile

/-- Python `needle in hay` on character lists: `True` iff `needle` occurs as a
contiguous substring (the empty needle always occurs). -/
def listIsInfix (needle : List Char) : List Char → Bool
  | [] => needle.isEmpty
  | c :: rest => needle.isPrefixOf (c :: rest) || listIsInfix needle rest

/-- Python `needle in hay` for strings. -/
def pyContains (hay needle : String) : Bool :=
  listIsInfix needle.data hay.data

/-- Python `s.startswith(pre)`. -/
def pyStartsWith (s pre : String) : Bool := pre.data.isPrefixOf s.data

/-- Python `s.endswith(suf)`. -/
def pyEndsWith (s suf : String) : Bool := suf.data.isSuffixOf s.data

/-- Python `len(s)` (number of characters). -/
def pyLen (s : String) : Nat := s.data.length

/-- Python `s[n:]`. -/
def pyDrop (s : String) (n : Nat) : String := String.mk (s.data.drop n)

/-- Python `s[:n]` for `0 ≤ n`. -/
def pyTake (s : String) (n : Nat) : String := String.mk (s.data.take n)

/-- Python `s.strip()`: drop whitespace from both ends. -/
def pyStrip (s : String) : String :=
  String.mk (((s.data.dropWhile Char.isWhitespace).reverse.dropWhile
    Char.isWhitespace).reverse)

/-- Worker for `pySplit`.  The fuel argument (initialised with the length of
the list, an upper bound on the number of steps) only makes the recursion
structural; it is never exhausted for a non-empty separator. -/
def pySplitAux (sep : List Char) : Nat → List Char → List Char → List (List Char)
  | _, [], acc => [acc.reverse]
  | 0, l, acc => [acc.reverse ++ l]
  | fuel + 1, c :: rest, acc =>
    if sep.isPrefixOf (c :: rest) then
      acc.reverse :: pySplitAux sep fuel ((c :: rest).drop sep.length) []
    else
      pySplitAux sep fuel rest (c :: acc)

/-- Python `s.split(sep)` for a non-empty separator: cut `s` at every
left-to-right non-overlapping occurrence of `sep`. -/
def pySplit (s sep : String) : List String :=
  (pySplitAux sep.data s.data.length s.data []).map String.mk

/-! ## system_messages.py -/

/-- Source: `system_messages.copile_from_specification` (verbatim). -/
def copile_from_specification : String :=
  "Given a python function prototype and a docstring,  write an implementation.\nAdd type hints to the function prototype if any are missing.\nIf the docstring is not in Google style, rewrite it in Google style.\nIf any modules need to be imported, import them above the function implementation. Don\x27t forget to import types.\nReturn only one function. Define any needed helper functions inside the main function.\nReturn only a code block with no other discussion and no examples.\n"

/-- Source: `system_messages.assess_specification` (verbatim). -/
def assess_specification : String :=
  "Given a python function and a docstring, determine if the function behavior is well specified.\nIf the described behavior of the function is unclear, ambiguous, or nonsensical, reply with just: \x27UNCLEAR: <explanation of what is unclear>\x27.\nIf you could, in good faith, figure out what is intended, then reply with just \x27CLEAR\x27."

/-- Source: `system_messages.check_for_safety_issues` (verbatim). -/
def check_for_safety_issues : String :=
  "Given a python function, you must review it for the following issues and reply with a comma-separated list of the identified issues:\nFILE_ACCESS: The code opens or accesses a file.\nFILE_DELETION: The code deletes a file.\nFILE_WRITE: The code creates or writes to a file.\nNON_TERMINATING: The code contains an non-terminating process such as an infinite loop.\nCODE_EVAL: The code tries to evaluate source code.\nSYSTEM_CALL: The code makes a system call or otherwise tries to run any external software.\nGENERALLY_UNSAFE: The code tries to do anything else that might be deemed unsafe.\nIf none of these issues are present in the code, reply with just NONE.\n"

/-! ## Data model for the embedding -/

/-- One chat-completion request actually sent to the service: the user text,
the system instruction, and the resolved model name. -/
structure OracleQuery where
  comment : String
  system_message : String
  model : String
deriving DecidableEq, Repr

/-- The external language-model service: `respond k` is the text it returns
for the `k`-th completed call of the run (calls are indexed by the length of
the query log at the moment of the call). -/
structure Oracle where
  respond : Nat → String

/-- Raised Python exceptions relevant to the embedded code.
`AttributeError` is the error raised by `_get_completion` when the size
guard sets `completion` to a plain `str` and `completion.choices` is then
accessed; `ParseError` models the `SyntaxError` raised by `ast.parse`; the
remaining constructors are the classes of `copilation_errors.py` with their
payloads. -/
inductive PyError : Type where
  | AttributeError : PyError
  | ParseError : PyError
  | BlackListedModuleImportError : String → List String → PyError
  | BlackListedFunctionUseError : String → List String → PyError
  | CopiledSourceDeemedUnsafeError : String → List String → PyError
  | CopiledSourceCodeNeedsModule : String → PyError
  | SpecificationUnclearError : String → String → PyError
deriving DecidableEq, Repr

deriving instance DecidableEq for Except

/-- A live Python callable, opaque to the embedding (only its identity
matters to the claims). -/
structure Callable where
  idnum : Nat
deriving DecidableEq, Repr

/-- Outcome of turning a candidate source into a live callable and writing it
to the cache (the body of the `try` block of `_copiler`: `_source_to_object`
followed by `_write_copiled_source`).  `moduleNotFound` models
`ModuleNotFoundError` with the missing module's name; `fail` models any other
exception, which the bare `except` of `_copiler` turns into a retry. -/
inductive ExecResult : Type where
  | ok : Callable → ExecResult
  | moduleNotFound : String → ExecResult
  | fail : ExecResult
deriving DecidableEq, Repr

mutual
/-- Shape of a parsed Python syntax tree, as far as
`check_for_blacklisted_functions_used` observes it: `Name` is a bare
identifier, `Call f args` a call expression whose children (in
`ast.iter_child_nodes` order) are the callee `f` followed by the argument
nodes, `Attribute v attr` an attribute access `v.attr` whose only child is
`v`, `Module body` the root produced by `ast.parse`, and `Other` any other
node kind together with its children. -/
inductive PyAst : Type where
  | Name : String → PyAst
  | Call : PyAst → PyAstList → PyAst
  | Attribute : PyAst → String → PyAst
  | Module : PyAstList → PyAst
  | Other : PyAstList → PyAst
/-- A list of sibling AST nodes. -/
inductive PyAstList : Type where
  | nil : PyAstList
  | cons : PyAst → PyAstList → PyAstList
end

/-- The environment of one `_copiler` invocation: the pieces of the outside
world the Python code consults.  `parse` is `ast.parse` (`none` = the source
raises `SyntaxError`); `exec_load` is the observable outcome of
`_source_to_object` + `_write_copiled_source` on a candidate source;
`module_blacklist_file` and `function_blacklist_file` are the contents of the
two newline-separated denylist files as read by `load_list`; `cache` is the
callable found by `_get_existing_copilation`, if any. -/
structure Env where
  parse : String → Option PyAst
  exec_load : String → ExecResult
  module_blacklist_file : List String
  function_blacklist_file : List String
  cache : Option Callable

/-! ## copilation.py -/

/-- Source: the `models` dict of `_get_completion`; the code is only ever
called with `model_class` equal to `'fast'` or `'best'`. -/
def models (model_class : String) : String :=
  if model_class = "fast" then "gpt-4o-mini"
  else "gpt-4o"

/-- Source: the `model_max_tokens` dict of `_get_completion` (a lookup of a
key outside the dict would be a `KeyError`; the two models actually used are
both present, so the fallback 0 is unreachable). -/
def model_max_tokens (model : String) : Nat :=
  if model = "gpt-4o-mini" then 128000
  else if model = "gpt-4o" then 128000
  else if model = "gpt-3.5-turbo-1106" then 16000
  else if model = "gpt-4-1106-preview" then 128000
  else 0

/-- Source: `max_characters = int(model_max_tokens[model] * 0.9 * 4)` of
`_get_completion`; for every budget in the dict the float expression is an
integer, so exact arithmetic gives the same value. -/
def max_characters (model : String) : Nat :=
  model_max_tokens model * 9 * 4 / 10

/-- Source: the f-string assigned to `completion` by the size guard of
`_get_completion` (it is never returned: see `_get_completion` below). -/
def could_not_get_a_completion (n maxc : Nat) : String :=
  "Could not get a completion because the number of characters (" ++
    toString n ++ ") exceeds the max allowed (" ++ toString maxc ++ ")."

/-- Source: `_get_completion` (lines 31-59).  Given the query log so far it
returns the response text (or a raised error) and the updated log.

When `len(comment) > max_characters` the code binds `completion` to the
plain string `could_not_get_a_completion ...` and makes no service call;
the function then executes `return completion.choices[0].message.content`
unconditionally, and a `str` has no attribute `choices`, so this branch
raises `AttributeError` instead of returning the placeholder text.
Otherwise the service is called once and the response content returned. -/
def _get_completion (o : Oracle) (st : List OracleQuery) (comment : String)
    (system_message : String) (model_class : String) :
    Except PyError String × List OracleQuery :=
  let model := models model_class
  if pyLen comment > max_characters model then
    (.error .AttributeError, st)
  else
    (.ok (o.respond st.length),
      st ++ [{ comment := comment, system_message := system_message, model := model }])

/-- Source: `_strip_special` (lines 62-69): remove each listed prefix and
suffix (once, in list order) when present. -/
def _strip_special (s : String) (prefixes suffixes : List String) : String :=
  let s1 := prefixes.foldl
    (fun acc p => if pyStartsWith acc p then pyDrop acc (pyLen p) else acc) s
  suffixes.foldl
    (fun acc suname => if pyEndsWith acc suname then pyTake acc (pyLen acc - pyLen suname) else acc) s1

/-- Source: `_clean_response` (lines 72-76). -/
def _clean_response (response : String) : String :=
  pyStrip (_strip_special response ["\x27", "```python", "```json"] ["\x27", "```"])

/-- Source: `check_for_blacklisted_modules_used` (lines 178-193): for each
denylisted module name, a pure substring test of the raw source text for
`"import <module>"` or `"from <module> import"`; matches are collected in
denylist order. -/
def check_for_blacklisted_modules_used (source_code : String)
    (blacklist : List String) : List String :=
  blacklist.filter (fun module =>
    pyContains source_code ("import " ++ module) ||
      pyContains source_code ("from " ++ module ++ " import"))

/-- The per-child test of `find_function_calls` (lines 208-213): a child that
is a call expression whose callee is a bare identifier on the denylist is
reported. -/
def callRootReport (bl : List String) : PyAst → List String
  | .Call (.Name i) _ => if bl.contains i then [i] else []
  | _ => []

mutual
/-- Source: `find_function_calls` of `check_for_blacklisted_functions_used`
applied to a node: every direct child is tested with `callRootReport` and
then recursed into, so the node itself is never tested (the root passed in by
the caller is the `ast.Module`). -/
def findCallsNode (bl : List String) : PyAst → List String
  | .Name _ => []
  | .Call f args => callRootReport bl f ++ findCallsNode bl f ++ findCallsL bl args
  | .Attribute v _ => callRootReport bl v ++ findCallsNode bl v
  | .Module body => findCallsL bl body
  | .Other cs => findCallsL bl cs
/-- Worker of `findCallsNode` over a list of sibling children. -/
def findCallsL (bl : List String) : PyAstList → List String
  | .nil => []
  | .cons c rest => callRootReport bl c ++ findCallsNode bl c ++ findCallsL bl rest
end

/-- Source: `check_for_blacklisted_functions_used` (lines 195-220):
`ast.parse` the source (a `SyntaxError` propagates) and walk the tree with
`find_function_calls`.  Python collects the names into a `set` and returns
`list(set)`; the Lean list returned here represents that set, so only
membership and emptiness are meaningful. -/
def check_for_blacklisted_functions_used (parse : String → Option PyAst)
    (source : String) (blacklisted_functions : List String) :
    Except PyError (List String) :=
  match parse source with
  | none => .error .ParseError
  | some tree => .ok (findCallsNode blacklisted_functions tree)

/-- The bare callee of a node if it is one (spec-side helper for claim C7):
`Name i` contributes `i` when it appears in callee position. -/
def bareCalleeOf : PyAst → List String
  | .Name i => [i]
  | _ => []

mutual
/-- Specification-side description for claim C7: every identifier occurring
anywhere in the tree (root included) as the callee of a call expression whose
callee is a bare identifier. -/
def allBareCalleeIds : PyAst → List String
  | .Name _ => []
  | .Call f args => bareCalleeOf f ++ allBareCalleeIds f ++ allBareCalleeIdsL args
  | .Attribute v _ => allBareCalleeIds v
  | .Module body => allBareCalleeIdsL body
  | .Other cs => allBareCalleeIdsL cs
/-- List version of `allBareCalleeIds`. -/
def allBareCalleeIdsL : PyAstList → List String
  | .nil => []
  | .cons c rest => allBareCalleeIds c ++ allBareCalleeIdsL rest
end

/-- Python `list(set(blacklist_file) - set(whitelist))` of `_review_safety`,
up to membership (the Python value has arbitrary set order and no
duplicates; only membership of the result matters downstream). -/
def net_list (blacklist_file whitelist : List String) : List String :=
  blacklist_file.filter (fun x => !(whitelist.contains x))

/-- Net semantic issues computed by `_review_safety` from a classifier
response: split on the literal `", "`, then discard the caller's overrides
and the `NONE` sentinel (Python set difference, modelled by a filter; only
membership and emptiness of the result are meaningful). -/
def net_safety_issues (response : String) (unsafe_overrides : List String) :
    List String :=
  (pySplit response ", ").filter
    (fun l => !(unsafe_overrides.contains l) && !(l == "NONE"))

/-- Source: `_review_safety` (lines 222-246).  Module denylist scan (net of
the whitelist), then function denylist scan (net of the whitelist), then one
semantic-classifier oracle call whose response is reduced by
`net_safety_issues`; the first non-empty result raises.  Returns the updated
oracle log alongside the outcome. -/
def _review_safety (o : Oracle) (env : Env) (st : List OracleQuery)
    (source : String)
    (module_whitelist function_whitelist unsafe_overrides : List String) :
    Except PyError Unit × List OracleQuery :=
  let module_blacklist := net_list env.module_blacklist_file module_whitelist
  let used_blacklisted_modules :=
    check_for_blacklisted_modules_used source module_blacklist
  if used_blacklisted_modules ≠ [] then
    (.error (.BlackListedModuleImportError source used_blacklisted_modules), st)
  else
    let function_blacklist := net_list env.function_blacklist_file function_whitelist
    match check_for_blacklisted_functions_used env.parse source function_blacklist with
    | .error e => (.error e, st)
    | .ok used_blacklisted_functions =>
      if used_blacklisted_functions ≠ [] then
        (.error (.BlackListedFunctionUseError source used_blacklisted_functions), st)
      else
        match _get_completion o st source check_for_safety_issues "best" with
        | (.error e, st2) => (.error e, st2)
        | (.ok issues_text, st2) =>
          let issues := net_safety_issues issues_text unsafe_overrides
          if issues ≠ [] then
            (.error (.CopiledSourceDeemedUnsafeError source issues), st2)
          else
            (.ok (), st2)

/-- Source: `_review_specification` (lines 248-251): one `'fast'`-tier oracle
call; a response that starts with `UNCLEAR` raises `SpecificationUnclearError`
carrying the callable name and the full response. -/
def _review_specification (o : Oracle) (st : List OracleQuery)
    (callable_name specification : String) :
    Except PyError Unit × List OracleQuery :=
  match _get_completion o st specification assess_specification "fast" with
  | (.error e, st2) => (.error e, st2)
  | (.ok issues, st2) =>
    if pyStartsWith issues "UNCLEAR" then
      (.error (.SpecificationUnclearError callable_name issues), st2)
    else
      (.ok (), st2)

/-- Source: the `while tries < max_tries` loop of `_copiler` (lines 280-309),
by recursion on the remaining attempts (`max_tries - tries`, initially 2).
Each attempt: one `'best'`-tier generation call, `_clean_response`, then
`_review_safety` (whose errors, including the parse error of the function
scan, propagate: the call sits outside the `try`).  Then the `try` block:
`exec_load` either yields the callable — which is returned after the source
is recorded as written to the cache file — or raises `ModuleNotFoundError`
(re-raised as `CopiledSourceCodeNeedsModule`, not retried), or raises
something else (bare `except`: `tries += 1`, `model_class` stays `'best'`,
retry).  Exhausting the attempts prints the last candidate and returns
`none` (Python `None`).  The third component lists the sources written to
the cache file. -/
def _copiler_loop (o : Oracle) (env : Env) (specification : String)
    (module_whitelist function_whitelist unsafe_overrides : List String) :
    Nat → List OracleQuery →
    Except PyError (Option Callable) × List OracleQuery × List String
  | 0, st => (.ok none, st, [])
  | tries_left + 1, st =>
    match _get_completion o st specification copile_from_specification "best" with
    | (.error e, st1) => (.error e, st1, [])
    | (.ok response, st1) =>
      let copiled_source := _clean_response response
      match _review_safety o env st1 copiled_source
          module_whitelist function_whitelist unsafe_overrides with
      | (.error e, st2) => (.error e, st2, [])
      | (.ok _, st2) =>
        match env.exec_load copiled_source with
        | .ok f => (.ok (some f), st2, [copiled_source])
        | .moduleNotFound m => (.error (.CopiledSourceCodeNeedsModule m), st2, [])
        | .fail =>
          _copiler_loop o env specification
            module_whitelist function_whitelist unsafe_overrides tries_left st2

/-- Source: `_copiler` (lines 253-312).  The specification text and the
callable name are inputs here: the code derives them from the decorated stub
by `inspect.getsource` (dropping the first line) and `_parse_callable_name`,
both reflection on the host program.  A cache hit without
`force_copilation` returns the cached callable untouched; otherwise the
clarity check runs once and then the generation loop with `max_tries = 2`.
Result: the outcome, the full oracle query log, and the sources written to
the cache file. -/
def _copiler (o : Oracle) (env : Env) (specification callable_name : String)
    (force_copilation : Bool)
    (module_whitelist function_whitelist unsafe_overrides : List String) :
    Except PyError (Option Callable) × List OracleQuery × List String :=
  if force_copilation || env.cache.isNone then
    match _review_specification o [] callable_name specification with
    | (.error e, st) => (.error e, st, [])
    | (.ok _, st) =>
      _copiler_loop o env specification
        module_whitelist function_whitelist unsafe_overrides 2 st
  else
    (.ok env.cache, [], [])

/-- Number of logged oracle calls that used the given system instruction. -/
def count_queries (msg : String) (log : List OracleQuery) : Nat :=
  (log.filter (fun q => q.system_message == msg)).length

/-- A candidate source has passed the full safety gate within the given
oracle log: the module scan net of the whitelist found nothing, the function
scan net of the whitelist parsed the source and found nothing, and at some
position `k` of the log sits the semantic-classification query for this very
source (queries are only appended, so position `k` of the log is the run's
`k`-th oracle call), whose response — the oracle's answer at call index `k` —
left no issues after removing the caller's overrides and the `NONE`
sentinel. -/
def passed_review (o : Oracle) (env : Env)
    (module_whitelist function_whitelist unsafe_overrides : List String)
    (log : List OracleQuery) (src : String) : Prop :=
  check_for_blacklisted_modules_used src
      (net_list env.module_blacklist_file module_whitelist) = [] ∧
  check_for_blacklisted_functions_used env.parse src
      (net_list env.function_blacklist_file function_whitelist) = .ok [] ∧
  ∃ k : Nat, log[k]? =
    some ({ comment := src, system_message := check_for_safety_issues,
            model := "gpt-4o" } : OracleQuery) ∧
    net_safety_issues (o.respond k) unsafe_overrides = []

/-! ## Concrete instances used by witnesses and counterexamples -/

/-- A small well-formed specification text (used as concrete input). -/
def spec_demo : String := "def f():\n    \"\"\"Return one.\"\"\""

/-- Candidate source produced on the successful demo run. -/
def cand_demo : String := "def f():\n    return 1"

/-- Oracle of the successful demo run: the clarity check answers `CLEAR`,
generation produces `cand_demo`, and the safety classifier answers `NONE`. -/
def oracle_success : Oracle :=
  ⟨fun k => if k = 0 then "CLEAR" else if k = 1 then cand_demo else "NONE"⟩

/-- Environment of the successful demo run: every source parses to an empty
module, loading always yields the callable `0`, the denylist files hold
`os` and `open`, and the cache is empty. -/
def env_fresh : Env :=
  { parse := fun _ => some (.Module .nil)
  , exec_load := fun _ => .ok ⟨0⟩
  , module_blacklist_file := ["os"]
  , function_blacklist_file := ["open"]
  , cache := none }

/-- Same environment after the first run populated the cache. -/
def env_cached : Env := { env_fresh with cache := some ⟨0⟩ }

/-- Oracle whose generation response `bad(` is syntactically invalid. -/
def oracle_unparsable : Oracle :=
  ⟨fun k => if k = 0 then "CLEAR" else "bad("⟩

/-- Environment in which the text `bad(` raises a parse error and everything
else parses to an empty module. -/
def env_unparsable : Env :=
  { env_fresh with parse := fun s => if s = "bad(" then none else some (.Module .nil) }

/-- Oracle of the retry demo: generation yields `cand1` then `cand2`, the
clarity check is clear and the classifier always answers `NONE`. -/
def oracle_retry : Oracle :=
  ⟨fun k => if k = 0 then "CLEAR" else if k = 1 then "cand1"
    else if k = 2 then "NONE" else if k = 3 then "cand2" else "NONE"⟩

/-- Environment in which only `cand2` loads into a callable; `cand1` fails
with a non-module error and is therefore retried. -/
def env_retry : Env :=
  { env_fresh with exec_load := fun s => if s = "cand2" then .ok ⟨2⟩ else .fail }

/-- Environment in which no candidate ever loads (every attempt fails with a
non-module error). -/
def env_exhaust : Env := { env_fresh with exec_load := fun _ => .fail }

/-- Oracle whose clarity response starts with `UNCLEAR`. -/
def oracle_unclear : Oracle := ⟨fun _ => "UNCLEAR: too vague"⟩

/-- Oracle whose safety classification is `FILE_WRITE, NONE` (the example of
claim C9). -/
def oracle_filewrite : Oracle := ⟨fun _ => "FILE_WRITE, NONE"⟩

/-- Source text that both imports a denylisted module and calls a denylisted
function (for claim C7's gate-order counterexample). -/
def src_both : String := "import os\nopen(x)"

/-- Parse tree of `src_both`: a module whose single statement holds the call
expression `open(x)` with a bare-identifier callee. -/
def tree_both : PyAst :=
  .Module (.cons (.Other (.cons (.Call (.Name "open") (.cons (.Name "x") .nil)) .nil)) .nil)

/-- Environment whose parser returns `tree_both` for `src_both` (and an
empty module otherwise). -/
def env_both : Env :=
  { env_fresh with parse := fun s => if s = src_both then some tree_both else some (.Module .nil) }

/-- A comment one character longer than the 460800-character budget shared
by both model tiers (for claim C3). -/
def big_comment : String := String.mk (List.replicate 460801 'a')

/-- Source text calling the denylisted `open` directly and the denylisted
`write` only through an attribute access (for claim C7's witness). -/
def src_call : String := "open(x)\nm.write(y)"

/-- Parse tree of `src_call`: two statements, a call with a bare-identifier
callee and a call whose callee is an attribute expression. -/
def tree_call_body : PyAstList :=
  .cons (.Other (.cons (.Call (.Name "open") (.cons (.Name "x") .nil)) .nil))
    (.cons (.Other (.cons (.Call (.Attribute (.Name "m") "write")
      (.cons (.Name "y") .nil)) .nil)) .nil)

/-- Environment whose parser returns `tree_call_body` under a module root for
`src_call`, with both `open` and `write` on the function denylist. -/
def env_call : Env :=
  { parse := fun s =>
      if s = src_call then some (.Module tree_call_body) else some (.Module .nil)
  , exec_load := fun _ => .ok ⟨0⟩
  , module_blacklist_file := ["os"]
  , function_blacklist_file := ["open", "write"]
  , cache := none }

/-! ## Helper lemmas -/

/-- A within-budget request performs exactly one service call and returns
the oracle's response for the current call index. -/
theorem get_completion_small (o : Oracle) (st : List OracleQuery)
    (comment system_message model_class : String)
    (h : pyLen comment ≤ max_characters (models model_class)) :
    _get_completion o st comment system_message model_class =
      (.ok (o.respond st.length),
        st ++ [{ comment := comment, system_message := system_message,
                 model := models model_class }]) := by
  unfold _get_completion
  simp [Nat.not_lt.mpr h]

/-- An over-budget request makes no service call and raises
`AttributeError` (the `str`-has-no-`choices` slip of `_get_completion`). -/
theorem get_completion_big (o : Oracle) (st : List OracleQuery)
    (comment system_message model_class : String)
    (h : max_characters (models model_class) < pyLen comment) :
    _get_completion o st comment system_message model_class =
      (.error .AttributeError, st) := by
  unfold _get_completion
  simp [h]

/-- A non-empty net module scan makes the gate raise immediately, with no
oracle call. -/
theorem review_module_fail (o : Oracle) (env : Env) (st : List OracleQuery)
    (source : String) (mw fw uo : List String)
    (h : check_for_blacklisted_modules_used source
        (net_list env.module_blacklist_file mw) ≠ []) :
    _review_safety o env st source mw fw uo =
      (.error (.BlackListedModuleImportError source
        (check_for_blacklisted_modules_used source
          (net_list env.module_blacklist_file mw))), st) := by
  unfold _review_safety
  simp [h]

/-- A clean module scan followed by a non-empty function scan makes the gate
raise `BlackListedFunctionUseError`, with no oracle call. -/
theorem review_fn_fail (o : Oracle) (env : Env) (st : List OracleQuery)
    (source : String) (mw fw uo : List String) (fns : List String)
    (hm : check_for_blacklisted_modules_used source
        (net_list env.module_blacklist_file mw) = [])
    (hf : check_for_blacklisted_functions_used env.parse source
        (net_list env.function_blacklist_file fw) = .ok fns)
    (hne : fns ≠ []) :
    _review_safety o env st source mw fw uo =
      (.error (.BlackListedFunctionUseError source fns), st) := by
  unfold _review_safety
  simp [hm, hf, hne]

/-- A failing function scan (for instance the parse error on invalid
candidates) propagates out of the gate, with no oracle call. -/
theorem review_fn_error (o : Oracle) (env : Env) (st : List OracleQuery)
    (source : String) (mw fw uo : List String) (e : PyError)
    (hm : check_for_blacklisted_modules_used source
        (net_list env.module_blacklist_file mw) = [])
    (hf : check_for_blacklisted_functions_used env.parse source
        (net_list env.function_blacklist_file fw) = .error e) :
    _review_safety o env st source mw fw uo = (.error e, st) := by
  unfold _review_safety
  simp [hm, hf]

/-- When both static scans pass and the source fits the budget, the gate
makes exactly one classifier call and decides by the net issue set. -/
theorem review_semantic (o : Oracle) (env : Env) (st : List OracleQuery)
    (source : String) (mw fw uo : List String)
    (hm : check_for_blacklisted_modules_used source
        (net_list env.module_blacklist_file mw) = [])
    (hf : check_for_blacklisted_functions_used env.parse source
        (net_list env.function_blacklist_file fw) = .ok [])
    (hlen : pyLen source ≤ max_characters "gpt-4o") :
    _review_safety o env st source mw fw uo =
      (if net_safety_issues (o.respond st.length) uo = [] then (.ok ())
       else (.error (.CopiledSourceDeemedUnsafeError source
         (net_safety_issues (o.respond st.length) uo))),
       st ++ [{ comment := source, system_message := check_for_safety_issues,
                model := "gpt-4o" }]) := by
  have hbest : models "best" = "gpt-4o" := by decide
  unfold _review_safety
  rw [get_completion_small o st source check_for_safety_issues "best"
    (by rw [hbest]; exact hlen)]
  simp [hm, hf, hbest]
  split
  · simp_all
  · simp_all

/-- When both static scans pass but the source is over budget, the
classifier call raises `AttributeError` before reaching the service. -/
theorem review_semantic_big (o : Oracle) (env : Env) (st : List OracleQuery)
    (source : String) (mw fw uo : List String)
    (hm : check_for_blacklisted_modules_used source
        (net_list env.module_blacklist_file mw) = [])
    (hf : check_for_blacklisted_functions_used env.parse source
        (net_list env.function_blacklist_file fw) = .ok [])
    (hlen : max_characters "gpt-4o" < pyLen source) :
    _review_safety o env st source mw fw uo = (.error .AttributeError, st) := by
  unfold _review_safety _get_completion
  have hbest : models "best" = "gpt-4o" := by decide
  simp [hm, hf, hbest, hlen]

/-- Everything a successful pass of the gate implies: both scans were clean,
the classifier response at the call's index left no net issues, and exactly
the classifier query was appended to the log. -/
theorem review_ok_shape (o : Oracle) (env : Env) (st : List OracleQuery)
    (source : String) (mw fw uo : List String) (st' : List OracleQuery)
    (h : _review_safety o env st source mw fw uo = (.ok (), st')) :
    check_for_blacklisted_modules_used source
        (net_list env.module_blacklist_file mw) = [] ∧
    check_for_blacklisted_functions_used env.parse source
        (net_list env.function_blacklist_file fw) = .ok [] ∧
    net_safety_issues (o.respond st.length) uo = [] ∧
    st' = st ++ [{ comment := source, system_message := check_for_safety_issues,
                   model := "gpt-4o" }] := by
  by_cases hm : check_for_blacklisted_modules_used source
      (net_list env.module_blacklist_file mw) = []
  · cases hp : check_for_blacklisted_functions_used env.parse source
        (net_list env.function_blacklist_file fw) with
    | error e => rw [review_fn_error o env st source mw fw uo e hm hp] at h; simp at h
    | ok fns =>
      by_cases hfns : fns = []
      · subst hfns
        by_cases hlen : pyLen source ≤ max_characters "gpt-4o"
        · rw [review_semantic o env st source mw fw uo hm hp hlen] at h
          by_cases hnet : net_safety_issues (o.respond st.length) uo = []
          · rw [if_pos hnet] at h
            exact ⟨hm, rfl, hnet, (Prod.mk.injEq _ _ _ _ ▸ h).2.symm⟩
          · rw [if_neg hnet] at h; simp at h
        · rw [review_semantic_big o env st source mw fw uo hm hp (Nat.not_le.mp hlen)] at h
          simp at h
      · rw [review_fn_fail o env st source mw fw uo fns hm hp hfns] at h; simp at h
  · rw [review_module_fail o env st source mw fw uo hm] at h; simp at h

/-- Whatever the outcome, the gate only ever appends classifier queries to
the oracle log. -/
theorem review_log_extend (o : Oracle) (env : Env) (st : List OracleQuery)
    (source : String) (mw fw uo : List String) :
    ∃ d, (_review_safety o env st source mw fw uo).2 = st ++ d ∧
      ∀ q ∈ d, q.system_message = check_for_safety_issues := by
  by_cases hm : check_for_blacklisted_modules_used source
      (net_list env.module_blacklist_file mw) = []
  · cases hp : check_for_blacklisted_functions_used env.parse source
        (net_list env.function_blacklist_file fw) with
    | error e => rw [review_fn_error o env st source mw fw uo e hm hp]; exact ⟨[], by simp⟩
    | ok fns =>
      by_cases hfns : fns = []
      · subst hfns
        by_cases hlen : pyLen source ≤ max_characters "gpt-4o"
        · rw [review_semantic o env st source mw fw uo hm hp hlen]
          exact ⟨[{ comment := source, system_message := check_for_safety_issues,
                    model := "gpt-4o" }], rfl, by simp⟩
        · rw [review_semantic_big o env st source mw fw uo hm hp (Nat.not_le.mp hlen)]
          exact ⟨[], by simp⟩
      · rw [review_fn_fail o env st source mw fw uo fns hm hp hfns]; exact ⟨[], by simp⟩
  · rw [review_module_fail o env st source mw fw uo hm]; exact ⟨[], by simp⟩

/-- One unrolling of the generation loop for a within-budget specification:
the generation call is appended to the log and the attempt proceeds with the
cleaned candidate. -/
theorem loop_step (o : Oracle) (env : Env) (specification : String)
    (mw fw uo : List String) (n : Nat) (st : List OracleQuery)
    (hlen : pyLen specification ≤ max_characters "gpt-4o") :
    _copiler_loop o env specification mw fw uo (n + 1) st =
      (match _review_safety o env
          (st ++ [{ comment := specification,
                    system_message := copile_from_specification, model := "gpt-4o" }])
          (_clean_response (o.respond st.length)) mw fw uo with
      | (.error e, st2) => (.error e, st2, [])
      | (.ok _, st2) =>
        match env.exec_load (_clean_response (o.respond st.length)) with
        | .ok f => (.ok (some f), st2, [_clean_response (o.respond st.length)])
        | .moduleNotFound m =>
          (.error (.CopiledSourceCodeNeedsModule m), st2, [])
        | .fail => _copiler_loop o env specification mw fw uo n st2) := by
  have hbest : models "best" = "gpt-4o" := by decide
  have hg := get_completion_small o st specification copile_from_specification "best"
    (by rw [hbest]; exact hlen)
  rw [hbest] at hg
  conv_lhs => unfold _copiler_loop
  rw [hg]

/-- One unrolling of the generation loop for an over-budget specification:
the generation call itself raises `AttributeError`. -/
theorem loop_step_big (o : Oracle) (env : Env) (specification : String)
    (mw fw uo : List String) (n : Nat) (st : List OracleQuery)
    (hlen : max_characters "gpt-4o" < pyLen specification) :
    _copiler_loop o env specification mw fw uo (n + 1) st =
      (.error .AttributeError, st, []) := by
  have hbest : models "best" = "gpt-4o" := by decide
  have hg : _get_completion o st specification copile_from_specification "best" =
      (.error .AttributeError, st) := by
    unfold _get_completion
    rw [hbest]
    simp [hlen]
  conv_lhs => unfold _copiler_loop
  rw [hg]

/-- The generation loop only appends generation and classifier queries to
the oracle log. -/
theorem loop_log_extend (o : Oracle) (env : Env) (specification : String)
    (mw fw uo : List String) :
    ∀ (n : Nat) (st : List OracleQuery),
      ∃ d, (_copiler_loop o env specification mw fw uo n st).2.1 = st ++ d ∧
        ∀ q ∈ d, q.system_message = copile_from_specification ∨
          q.system_message = check_for_safety_issues
  | 0, st => ⟨[], by simp [_copiler_loop]⟩
  | n + 1, st => by
    by_cases hlen : pyLen specification ≤ max_characters "gpt-4o"
    · rw [loop_step o env specification mw fw uo n st hlen]
      set q1 : OracleQuery :=
        { comment := specification, system_message := copile_from_specification,
          model := "gpt-4o" } with hq1def
      have hq1msg : q1.system_message = copile_from_specification := rfl
      obtain ⟨d2, hd2, hall2⟩ := review_log_extend o env (st ++ [q1])
        (_clean_response (o.respond st.length)) mw fw uo
      rcases hr : _review_safety o env (st ++ [q1])
          (_clean_response (o.respond st.length)) mw fw uo with ⟨res, st2⟩
      have hst2 : st2 = st ++ [q1] ++ d2 := by rw [← hd2, hr]
      have hmem : ∀ q ∈ [q1] ++ d2, q.system_message = copile_from_specification ∨
          q.system_message = check_for_safety_issues := by
        intro q hq
        rcases List.mem_append.mp hq with h1 | h2
        · left; simp at h1; rw [h1]
        · right; exact hall2 q h2
      cases res with
      | error e => exact ⟨[q1] ++ d2, by simp [hst2], hmem⟩
      | ok u =>
        cases hx : env.exec_load (_clean_response (o.respond st.length)) with
        | ok f => exact ⟨[q1] ++ d2, by simp [hst2], hmem⟩
        | moduleNotFound m => exact ⟨[q1] ++ d2, by simp [hst2], hmem⟩
        | fail =>
          obtain ⟨d3, hd3, hall3⟩ := loop_log_extend o env specification mw fw uo n st2
          refine ⟨[q1] ++ d2 ++ d3, ?_, ?_⟩
          · rw [hd3, hst2]; simp
          · intro q hq
            rcases List.mem_append.mp hq with h12 | h3
            · exact hmem q h12
            · exact hall3 q h3
    · rw [loop_step_big o env specification mw fw uo n st (Nat.not_le.mp hlen)]
      exact ⟨[], by simp⟩

/-- Every source the generation loop writes to the cache file passed the
full gate within the loop's own oracle log — with the clean classifier
response sitting at the log position of that source's classification query —
and a returned callable was loaded from such a written source. -/
theorem loop_writes_safe (o : Oracle) (env : Env) (specification : String)
    (mw fw uo : List String) :
    ∀ (n : Nat) (st : List OracleQuery),
      (∀ src ∈ (_copiler_loop o env specification mw fw uo n st).2.2,
        passed_review o env mw fw uo
          (_copiler_loop o env specification mw fw uo n st).2.1 src) ∧
      (∀ f, (_copiler_loop o env specification mw fw uo n st).1 = .ok (some f) →
        ∃ src ∈ (_copiler_loop o env specification mw fw uo n st).2.2,
          env.exec_load src = .ok f ∧ passed_review o env mw fw uo
            (_copiler_loop o env specification mw fw uo n st).2.1 src)
  | 0, st => by
    constructor
    · intro src h
      simp [_copiler_loop] at h
    · intro f h
      simp [_copiler_loop] at h
  | n + 1, st => by
    by_cases hlen : pyLen specification ≤ max_characters "gpt-4o"
    · rw [loop_step o env specification mw fw uo n st hlen]
      rcases hr : _review_safety o env
          (st ++ [{ comment := specification,
                    system_message := copile_from_specification, model := "gpt-4o" }])
          (_clean_response (o.respond st.length)) mw fw uo with ⟨res, st2⟩
      rw [hr]
      cases res with
      | error e =>
        constructor
        · intro src h; simp at h
        · intro f h; simp at h
      | ok u =>
        cases u
        obtain ⟨hm, hf, hnet, hshape⟩ := review_ok_shape o env _ _ mw fw uo _ hr
        have hpass : passed_review o env mw fw uo st2
            (_clean_response (o.respond st.length)) := by
          refine ⟨hm, hf, _, ?_, hnet⟩
          rw [hshape]
          exact List.getElem?_concat_length _ _
        cases hx : env.exec_load (_clean_response (o.respond st.length)) with
        | ok f0 =>
          constructor
          · intro src h
            simp at h
            rw [h]
            exact hpass
          · intro f h
            refine ⟨_, by simp, ?_, hpass⟩
            simp at h
            rw [hx, h]
        | moduleNotFound m =>
          constructor
          · intro src h; simp at h
          · intro f h; simp at h
        | fail => exact loop_writes_safe o env specification mw fw uo n st2
    · rw [loop_step_big o env specification mw fw uo n st (Nat.not_le.mp hlen)]
      constructor
      · intro src h; simp at h
      · intro f h; simp at h

/-- Counting logged queries distributes over list append. -/
theorem count_queries_append (msg : String) (a b : List OracleQuery) :
    count_queries msg (a ++ b) = count_queries msg a + count_queries msg b := by
  unfold count_queries
  simp [List.filter_append]

/-- A log block none of whose queries carry the instruction contributes no
count. -/
theorem count_queries_zero (msg : String) (d : List OracleQuery)
    (h : ∀ q ∈ d, ¬ q.system_message = msg) :
    count_queries msg d = 0 := by
  unfold count_queries
  simp [List.filter_eq_nil_iff]
  intro q hq
  simpa using h q hq

/-- A within-budget clarity check whose response starts with `UNCLEAR`
raises `SpecificationUnclearError` with the callable name and the full
response, after exactly one clarity query. -/
theorem review_spec_unclear (o : Oracle) (st : List OracleQuery)
    (callable_name specification : String)
    (hlen : pyLen specification ≤ max_characters "gpt-4o-mini")
    (hun : pyStartsWith (o.respond st.length) "UNCLEAR" = true) :
    _review_specification o st callable_name specification =
      (.error (.SpecificationUnclearError callable_name (o.respond st.length)),
        st ++ [{ comment := specification, system_message := assess_specification,
                 model := "gpt-4o-mini" }]) := by
  have hfast : models "fast" = "gpt-4o-mini" := by decide
  unfold _review_specification
  rw [get_completion_small o st specification assess_specification "fast"
    (by rw [hfast]; exact hlen)]
  rw [hfast]
  simp [hun]

/-- A within-budget clarity check whose response does not start with
`UNCLEAR` passes, after exactly one clarity query. -/
theorem review_spec_clear (o : Oracle) (st : List OracleQuery)
    (callable_name specification : String)
    (hlen : pyLen specification ≤ max_characters "gpt-4o-mini")
    (hun : pyStartsWith (o.respond st.length) "UNCLEAR" = false) :
    _review_specification o st callable_name specification =
      (.ok (),
        st ++ [{ comment := specification, system_message := assess_specification,
                 model := "gpt-4o-mini" }]) := by
  have hfast : models "fast" = "gpt-4o-mini" := by decide
  unfold _review_specification
  rw [get_completion_small o st specification assess_specification "fast"
    (by rw [hfast]; exact hlen)]
  rw [hfast]
  simp [hun]



theorem callRootReport_Name (bl : List String) (a : String) :
    callRootReport bl (.Name a) = [] := rfl
theorem callRootReport_CallName (bl : List String) (i : String) (args : PyAstList) :
    callRootReport bl (.Call (.Name i) args) = (if bl.contains i then [i] else []) := rfl
theorem callRootReport_CallCall (bl : List String) (g : PyAst) (ga args : PyAstList) :
    callRootReport bl (.Call (.Call g ga) args) = [] := rfl
theorem callRootReport_CallAttr (bl : List String) (v : PyAst) (a : String) (args : PyAstList) :
    callRootReport bl (.Call (.Attribute v a) args) = [] := rfl
theorem callRootReport_CallModule (bl : List String) (b args : PyAstList) :
    callRootReport bl (.Call (.Module b) args) = [] := rfl
theorem callRootReport_CallOther (bl : List String) (b args : PyAstList) :
    callRootReport bl (.Call (.Other b) args) = [] := rfl
theorem callRootReport_Attribute (bl : List String) (v : PyAst) (a : String) :
    callRootReport bl (.Attribute v a) = [] := rfl
theorem callRootReport_Module (bl : List String) (b : PyAstList) :
    callRootReport bl (.Module b) = [] := rfl
theorem callRootReport_Other (bl : List String) (b : PyAstList) :
    callRootReport bl (.Other b) = [] := rfl
theorem findCallsNode_Name (bl : List String) (a : String) :
    findCallsNode bl (.Name a) = [] := rfl
theorem findCallsNode_Call (bl : List String) (f : PyAst) (args : PyAstList) :
    findCallsNode bl (.Call f args) =
      callRootReport bl f ++ findCallsNode bl f ++ findCallsL bl args := rfl
theorem findCallsNode_Attribute (bl : List String) (v : PyAst) (a : String) :
    findCallsNode bl (.Attribute v a) = callRootReport bl v ++ findCallsNode bl v := rfl
theorem findCallsNode_Module (bl : List String) (b : PyAstList) :
    findCallsNode bl (.Module b) = findCallsL bl b := rfl
theorem findCallsNode_Other (bl : List String) (b : PyAstList) :
    findCallsNode bl (.Other b) = findCallsL bl b := rfl
theorem findCallsL_nil (bl : List String) : findCallsL bl .nil = [] := rfl
theorem findCallsL_cons (bl : List String) (c : PyAst) (rest : PyAstList) :
    findCallsL bl (.cons c rest) =
      callRootReport bl c ++ findCallsNode bl c ++ findCallsL bl rest := rfl
theorem bareCalleeOf_Name (a : String) : bareCalleeOf (.Name a) = [a] := rfl
theorem bareCalleeOf_Call (g : PyAst) (ga : PyAstList) : bareCalleeOf (.Call g ga) = [] := rfl
theorem bareCalleeOf_Attribute (v : PyAst) (a : String) : bareCalleeOf (.Attribute v a) = [] := rfl
theorem bareCalleeOf_Module (b : PyAstList) : bareCalleeOf (.Module b) = [] := rfl
theorem bareCalleeOf_Other (b : PyAstList) : bareCalleeOf (.Other b) = [] := rfl
theorem allBareCalleeIds_Name (a : String) : allBareCalleeIds (.Name a) = [] := rfl
theorem allBareCalleeIds_Call (f : PyAst) (args : PyAstList) :
    allBareCalleeIds (.Call f args) =
      bareCalleeOf f ++ allBareCalleeIds f ++ allBareCalleeIdsL args := rfl
theorem allBareCalleeIds_Attribute (v : PyAst) (a : String) :
    allBareCalleeIds (.Attribute v a) = allBareCalleeIds v := rfl
theorem allBareCalleeIds_Module (b : PyAstList) :
    allBareCalleeIds (.Module b) = allBareCalleeIdsL b := rfl
theorem allBareCalleeIds_Other (b : PyAstList) :
    allBareCalleeIds (.Other b) = allBareCalleeIdsL b := rfl
theorem allBareCalleeIdsL_nil : allBareCalleeIdsL .nil = [] := rfl
theorem allBareCalleeIdsL_cons (c : PyAst) (rest : PyAstList) :
    allBareCalleeIdsL (.cons c rest) = allBareCalleeIds c ++ allBareCalleeIdsL rest := rfl

/-- Membership in the result of the function-scan walk coincides, for every
node, with being a denylisted bare-callee identifier somewhere in that node
(the disjunct `callRootReport` accounts for the node itself, which the walk
only tests when the node occurs as a child). -/
theorem findCalls_exact (bl : List String) (x : String) :
    (∀ c : PyAst, ((x ∈ callRootReport bl c ∨ x ∈ findCallsNode bl c) ↔
      (x ∈ allBareCalleeIds c ∧ x ∈ bl))) ∧
    (∀ cs : PyAstList, (x ∈ findCallsL bl cs ↔ (x ∈ allBareCalleeIdsL cs ∧ x ∈ bl))) := by
  have p1 : ∀ (a : String),
      (x ∈ callRootReport bl (.Name a) ∨ x ∈ findCallsNode bl (.Name a)) ↔
        (x ∈ allBareCalleeIds (.Name a) ∧ x ∈ bl) := by
    intro a
    rw [callRootReport_Name, findCallsNode_Name, allBareCalleeIds_Name]
    simp
  have p2 : ∀ (f : PyAst) (args : PyAstList),
      ((x ∈ callRootReport bl f ∨ x ∈ findCallsNode bl f) ↔
        (x ∈ allBareCalleeIds f ∧ x ∈ bl)) →
      ((x ∈ findCallsL bl args) ↔ (x ∈ allBareCalleeIdsL args ∧ x ∈ bl)) →
      ((x ∈ callRootReport bl (.Call f args) ∨ x ∈ findCallsNode bl (.Call f args)) ↔
        (x ∈ allBareCalleeIds (.Call f args) ∧ x ∈ bl)) := by
    intro f args ih1 ih2
    rw [findCallsNode_Call, allBareCalleeIds_Call]
    cases f with
    | Name i =>
      rw [callRootReport_CallName, callRootReport_Name, findCallsNode_Name,
        allBareCalleeIds_Name, bareCalleeOf_Name]
      simp only [List.mem_append, List.not_mem_nil, false_or, or_false,
        List.append_nil, List.nil_append, List.mem_singleton]
      rw [ih2]
      by_cases hbi : bl.contains i
      · rw [if_pos hbi]
        have hxm : x = i → x ∈ bl := by
          intro hx; subst hx; exact List.elem_iff.mp hbi
        simp only [List.mem_singleton]
        constructor
        · rintro (h | h)
          · exact ⟨Or.inl h, hxm h⟩
          · exact ⟨Or.inr h.1, h.2⟩
        · rintro ⟨h | h, hx⟩
          · exact Or.inl h
          · exact Or.inr ⟨h, hx⟩
      · rw [if_neg hbi]
        have hxm : x = i → ¬ x ∈ bl := by
          intro hx hmem; subst hx; exact hbi (List.elem_iff.mpr hmem)
        simp only [List.not_mem_nil, false_or]
        constructor
        · rintro h
          exact ⟨Or.inr h.1, h.2⟩
        · rintro ⟨h | h, hx⟩
          · exact absurd hx (hxm h)
          · exact ⟨h, hx⟩
    | Call g gargs =>
      rw [callRootReport_CallCall, bareCalleeOf_Call]
      simp only [List.mem_append, List.not_mem_nil, false_or, List.nil_append]
      rw [ih2]
      tauto
    | Attribute v a =>
      rw [callRootReport_CallAttr, bareCalleeOf_Attribute]
      simp only [List.mem_append, List.not_mem_nil, false_or, List.nil_append]
      rw [ih2]
      tauto
    | Module body =>
      rw [callRootReport_CallModule, bareCalleeOf_Module]
      simp only [List.mem_append, List.not_mem_nil, false_or, List.nil_append]
      rw [ih2]
      tauto
    | Other cs =>
      rw [callRootReport_CallOther, bareCalleeOf_Other]
      simp only [List.mem_append, List.not_mem_nil, false_or, List.nil_append]
      rw [ih2]
      tauto
  have p3 : ∀ (v : PyAst) (a : String),
      ((x ∈ callRootReport bl v ∨ x ∈ findCallsNode bl v) ↔
        (x ∈ allBareCalleeIds v ∧ x ∈ bl)) →
      ((x ∈ callRootReport bl (.Attribute v a) ∨ x ∈ findCallsNode bl (.Attribute v a)) ↔
        (x ∈ allBareCalleeIds (.Attribute v a) ∧ x ∈ bl)) := by
    intro v a ih1
    rw [callRootReport_Attribute, findCallsNode_Attribute, allBareCalleeIds_Attribute]
    simp only [List.mem_append, List.not_mem_nil, false_or]
    exact ih1
  have p4 : ∀ (body : PyAstList),
      ((x ∈ findCallsL bl body) ↔ (x ∈ allBareCalleeIdsL body ∧ x ∈ bl)) →
      ((x ∈ callRootReport bl (.Module body) ∨ x ∈ findCallsNode bl (.Module body)) ↔
        (x ∈ allBareCalleeIds (.Module body) ∧ x ∈ bl)) := by
    intro body ih
    rw [callRootReport_Module, findCallsNode_Module, allBareCalleeIds_Module]
    simp only [List.not_mem_nil, false_or]
    exact ih
  have p5 : ∀ (cs : PyAstList),
      ((x ∈ findCallsL bl cs) ↔ (x ∈ allBareCalleeIdsL cs ∧ x ∈ bl)) →
      ((x ∈ callRootReport bl (.Other cs) ∨ x ∈ findCallsNode bl (.Other cs)) ↔
        (x ∈ allBareCalleeIds (.Other cs) ∧ x ∈ bl)) := by
    intro cs ih
    rw [callRootReport_Other, findCallsNode_Other, allBareCalleeIds_Other]
    simp only [List.not_mem_nil, false_or]
    exact ih
  have p6 : (x ∈ findCallsL bl .nil) ↔ (x ∈ allBareCalleeIdsL .nil ∧ x ∈ bl) := by
    rw [findCallsL_nil, allBareCalleeIdsL_nil]
    simp
  have p7 : ∀ (c : PyAst) (rest : PyAstList),
      ((x ∈ callRootReport bl c ∨ x ∈ findCallsNode bl c) ↔
        (x ∈ allBareCalleeIds c ∧ x ∈ bl)) →
      ((x ∈ findCallsL bl rest) ↔ (x ∈ allBareCalleeIdsL rest ∧ x ∈ bl)) →
      ((x ∈ findCallsL bl (.cons c rest)) ↔
        (x ∈ allBareCalleeIdsL (.cons c rest) ∧ x ∈ bl)) := by
    intro c rest ih1 ih2
    rw [findCallsL_cons, allBareCalleeIdsL_cons]
    simp only [List.mem_append]
    rw [ih2]
    tauto
  refine ⟨fun c => ?_, fun cs => ?_⟩
  · exact @PyAst.rec
      (fun c => (x ∈ callRootReport bl c ∨ x ∈ findCallsNode bl c) ↔
        (x ∈ allBareCalleeIds c ∧ x ∈ bl))
      (fun cs => (x ∈ findCallsL bl cs) ↔ (x ∈ allBareCalleeIdsL cs ∧ x ∈ bl))
      p1 p2 p3 p4 p5 p6 p7 c
  · exact @PyAstList.rec
      (fun c => (x ∈ callRootReport bl c ∨ x ∈ findCallsNode bl c) ↔
        (x ∈ allBareCalleeIds c ∧ x ∈ bl))
      (fun cs => (x ∈ findCallsL bl cs) ↔ (x ∈ allBareCalleeIdsL cs ∧ x ∈ bl))
      p1 p2 p3 p4 p5 p6 p7 cs



/-- When the gate raises `BlackListedModuleImportError`, the reported list is
exactly the module scan's result. -/
theorem review_module_error_inv (o : Oracle) (env : Env) (st : List OracleQuery)
    (source : String) (mw fw uo : List String) (mods : List String)
    (h : (_review_safety o env st source mw fw uo).1 =
      .error (.BlackListedModuleImportError source mods)) :
    mods = check_for_blacklisted_modules_used source
      (net_list env.module_blacklist_file mw) := by
  by_cases hm : check_for_blacklisted_modules_used source
      (net_list env.module_blacklist_file mw) = []
  · exfalso
    cases hp : check_for_blacklisted_functions_used env.parse source
        (net_list env.function_blacklist_file fw) with
    | error e =>
      rw [review_fn_error o env st source mw fw uo e hm hp] at h
      cases hp2 : env.parse source with
      | none =>
        unfold check_for_blacklisted_functions_used at hp
        rw [hp2] at hp
        cases hp
        cases h
      | some tree =>
        unfold check_for_blacklisted_functions_used at hp
        rw [hp2] at hp
        cases hp
    | ok fns =>
      by_cases hfns : fns = []
      · subst hfns
        by_cases hlen : pyLen source ≤ max_characters "gpt-4o"
        · rw [review_semantic o env st source mw fw uo hm hp hlen] at h
          by_cases hnet : net_safety_issues (o.respond st.length) uo = []
          · rw [if_pos hnet] at h; cases h
          · rw [if_neg hnet] at h; cases h
        · rw [review_semantic_big o env st source mw fw uo hm hp (Nat.not_le.mp hlen)] at h
          cases h
      · rw [review_fn_fail o env st source mw fw uo fns hm hp hfns] at h
        cases h
  · rw [review_module_fail o env st source mw fw uo hm] at h
    cases h
    rfl

/-- The generation and clarity instructions are different strings. -/
theorem copile_ne_assess : ¬ (copile_from_specification = assess_specification) := by
  decide

/-- The classifier and clarity instructions are different strings. -/
theorem safety_ne_assess : ¬ (check_for_safety_issues = assess_specification) := by
  decide

/-- `loop_step` specialised to the literal fuel value 2. -/
theorem loop_step_two (o : Oracle) (env : Env) (specification : String)
    (mw fw uo : List String) (st : List OracleQuery)
    (hlen : pyLen specification ≤ max_characters "gpt-4o") :
    _copiler_loop o env specification mw fw uo 2 st =
      (match _review_safety o env
          (st ++ [{ comment := specification,
                    system_message := copile_from_specification, model := "gpt-4o" }])
          (_clean_response (o.respond st.length)) mw fw uo with
      | (.error e, st2) => (.error e, st2, [])
      | (.ok _, st2) =>
        match env.exec_load (_clean_response (o.respond st.length)) with
        | .ok f => (.ok (some f), st2, [_clean_response (o.respond st.length)])
        | .moduleNotFound m =>
          (.error (.CopiledSourceCodeNeedsModule m), st2, [])
        | .fail => _copiler_loop o env specification mw fw uo 1 st2) :=
  loop_step o env specification mw fw uo 1 st hlen

/-- `loop_step` specialised to the literal fuel value 1. -/
theorem loop_step_one (o : Oracle) (env : Env) (specification : String)
    (mw fw uo : List String) (st : List OracleQuery)
    (hlen : pyLen specification ≤ max_characters "gpt-4o") :
    _copiler_loop o env specification mw fw uo 1 st =
      (match _review_safety o env
          (st ++ [{ comment := specification,
                    system_message := copile_from_specification, model := "gpt-4o" }])
          (_clean_response (o.respond st.length)) mw fw uo with
      | (.error e, st2) => (.error e, st2, [])
      | (.ok _, st2) =>
        match env.exec_load (_clean_response (o.respond st.length)) with
        | .ok f => (.ok (some f), st2, [_clean_response (o.respond st.length)])
        | .moduleNotFound m =>
          (.error (.CopiledSourceCodeNeedsModule m), st2, [])
        | .fail => _copiler_loop o env specification mw fw uo 0 st2) :=
  loop_step o env specification mw fw uo 0 st hlen

/-- The demo oversize comment has 460801 characters. -/
theorem pyLen_big_comment : pyLen big_comment = 460801 := by
  unfold pyLen big_comment
  rw [String.data]
  rw [List.length_replicate]

set_option maxRecDepth 40000 in
/-- Full evaluation of the successful demo run: cache miss, clarity passes,
one generation attempt, safety passes, the candidate is written and its
callable returned; the oracle log holds the clarity, generation, and
classifier queries in order. -/
theorem success_run_eval :
    _copiler oracle_success env_fresh spec_demo "f" false [] [] [] =
      (.ok (some ⟨0⟩),
       [{ comment := spec_demo, system_message := assess_specification,
          model := "gpt-4o-mini" },
        { comment := spec_demo, system_message := copile_from_specification,
          model := "gpt-4o" },
        { comment := cand_demo, system_message := check_for_safety_issues,
          model := "gpt-4o" }],
       [cand_demo]) := by
  decide

/-! ## Claim theorems -/

/-- C1: for every generation call, a candidate source is never written to
the cache file, and never returned to the caller as a live callable on the
generation path, unless it passed the module denylist scan and the function
denylist scan with zero net (post-whitelist) violations and its own
semantic classification left no risk labels after subtracting the caller's
unsafe-override set and the `NONE` sentinel: `passed_review` exhibits, in
this very run's oracle log, the position of the classifier query whose
`comment` is the candidate itself, and requires the oracle's response at
that call index to be clean. -/
theorem C1_candidate_source_gated (o : Oracle) (env : Env)
    (specification callable_name : String) (force_copilation : Bool)
    (mw fw uo : List String) :
    (∀ src ∈ (_copiler o env specification callable_name force_copilation mw fw uo).2.2,
      passed_review o env mw fw uo
        (_copiler o env specification callable_name force_copilation mw fw uo).2.1 src) ∧
    (∀ f, (force_copilation = true ∨ env.cache = none) →
      (_copiler o env specification callable_name force_copilation mw fw uo).1 =
        .ok (some f) →
      ∃ src ∈ (_copiler o env specification callable_name force_copilation mw fw uo).2.2,
        env.exec_load src = .ok f ∧ passed_review o env mw fw uo
          (_copiler o env specification callable_name force_copilation mw fw uo).2.1 src) := by
  by_cases hc : (force_copilation || env.cache.isNone) = true
  · unfold _copiler
    rw [if_pos hc]
    rcases hrs : _review_specification o [] callable_name specification with ⟨res, st⟩
    cases res with
    | error e =>
      constructor
      · intro src h; simp at h
      · intro f _ h; simp at h
    | ok u =>
      cases u
      have h := loop_writes_safe o env specification mw fw uo 2 st
      exact ⟨h.1, fun f _ hf => h.2 f hf⟩
  · unfold _copiler
    rw [if_neg hc]
    constructor
    · intro src h; simp at h
    · intro f hfresh h
      exfalso
      simp only [Bool.or_eq_true, not_or] at hc
      rcases hfresh with hf | hn
      · exact hc.1 (by rw [hf])
      · exact hc.2 (by rw [hn]; rfl)

/-- C1 witness: in the successful demo run the written (and returned)
candidate passed the full gate. -/
theorem C1_witness :
    cand_demo ∈ (_copiler oracle_success env_fresh spec_demo "f" false [] [] []).2.2 ∧
    passed_review oracle_success env_fresh [] [] []
      (_copiler oracle_success env_fresh spec_demo "f" false [] [] []).2.1
      cand_demo := by
  have hm : cand_demo ∈
      (_copiler oracle_success env_fresh spec_demo "f" false [] [] []).2.2 := by
    rw [success_run_eval]
    simp
  exact ⟨hm, (C1_candidate_source_gated oracle_success env_fresh spec_demo "f"
    false [] [] []).1 cand_demo hm⟩

/-- C2: the safety gate runs module scan, function scan, then semantic
classification, raising on the first failing check with the oracle log
unchanged (so the classifier is never called when a static scan failed, nor
when the function scan raises a parse error), and makes exactly the one
classifier call when both static scans pass. -/
theorem C2_gate_order_and_short_circuit (o : Oracle) (env : Env)
    (st : List OracleQuery) (source : String) (mw fw uo : List String) :
    (check_for_blacklisted_modules_used source
        (net_list env.module_blacklist_file mw) ≠ [] →
      _review_safety o env st source mw fw uo =
        (.error (.BlackListedModuleImportError source
          (check_for_blacklisted_modules_used source
            (net_list env.module_blacklist_file mw))), st)) ∧
    (∀ fns, check_for_blacklisted_modules_used source
        (net_list env.module_blacklist_file mw) = [] →
      check_for_blacklisted_functions_used env.parse source
        (net_list env.function_blacklist_file fw) = .ok fns →
      fns ≠ [] →
      _review_safety o env st source mw fw uo =
        (.error (.BlackListedFunctionUseError source fns), st)) ∧
    (check_for_blacklisted_modules_used source
        (net_list env.module_blacklist_file mw) = [] →
      env.parse source = none →
      _review_safety o env st source mw fw uo = (.error .ParseError, st)) ∧
    (check_for_blacklisted_modules_used source
        (net_list env.module_blacklist_file mw) = [] →
      check_for_blacklisted_functions_used env.parse source
        (net_list env.function_blacklist_file fw) = .ok [] →
      pyLen source ≤ max_characters "gpt-4o" →
      (_review_safety o env st source mw fw uo).2 =
        st ++ [{ comment := source, system_message := check_for_safety_issues,
                 model := "gpt-4o" }]) := by
  refine ⟨?_, ?_, ?_, ?_⟩
  · intro hm
    exact review_module_fail o env st source mw fw uo hm
  · intro fns hm hf hne
    exact review_fn_fail o env st source mw fw uo fns hm hf hne
  · intro hm hp
    have hf : check_for_blacklisted_functions_used env.parse source
        (net_list env.function_blacklist_file fw) = .error .ParseError := by
      unfold check_for_blacklisted_functions_used
      rw [hp]
    exact review_fn_error o env st source mw fw uo _ hm hf
  · intro hm hf hlen
    rw [review_semantic o env st source mw fw uo hm hf hlen]

/-- C2 witness: a source importing a denylisted module makes the gate raise
the module error with no oracle call logged. -/
theorem C2_witness :
    _review_safety oracle_success env_fresh [] "import os\n" [] [] [] =
      (.error (.BlackListedModuleImportError "import os\n" ["os"]), []) := by
  have h := (C2_gate_order_and_short_circuit oracle_success env_fresh []
    "import os\n" [] [] []).1 (by decide)
  exact h.trans (by decide)

/-- C3 (code bug): an input longer than the computed character budget makes
`_get_completion` perform no oracle call, but instead of returning the
placeholder text the function raises `AttributeError`, because the
placeholder is bound to a plain string whose `.choices` attribute is then
accessed by the unconditional return statement. -/
theorem C3_oversize_raises_attribute_error :
    pyLen big_comment > max_characters (models "fast") ∧
    pyLen big_comment > max_characters (models "best") ∧
    (∀ (o : Oracle) (st : List OracleQuery) (system_message model_class : String),
      model_class = "fast" ∨ model_class = "best" →
      _get_completion o st big_comment system_message model_class =
        (.error .AttributeError, st)) := by
  have hlen : pyLen big_comment = 460801 := pyLen_big_comment
  refine ⟨by rw [hlen]; decide, by rw [hlen]; decide, ?_⟩
  intro o st system_message model_class hmc
  rcases hmc with h | h <;> subst h
  · exact get_completion_big o st big_comment system_message "fast"
      (by rw [hlen]; decide)
  · exact get_completion_big o st big_comment system_message "best"
      (by rw [hlen]; decide)

/-- C3 witness: a concrete oversize call raises `AttributeError` with no
oracle query logged. -/
theorem C3_witness :
    _get_completion oracle_success [] big_comment check_for_safety_issues "best" =
      (.error .AttributeError, []) :=
  C3_oversize_raises_attribute_error.2.2 oracle_success [] check_for_safety_issues
    "best" (Or.inr rfl)

set_option maxRecDepth 8000 in
/-- C4 (amended): a candidate that passes the safety review but fails to
load into a callable (other than by a missing module) is retried, up to 2
attempts in total; exhausting the attempts returns `none` (Python `None`)
rather than raising; when attempt 1 fails this way and attempt 2 passes
review and loads, the call returns attempt 2's callable after exactly two
generation oracle calls.  (A syntactically invalid candidate instead raises
the parse error out of the safety gate: see the counterexample.) -/
theorem C4_validity_failures_retried (o : Oracle) (env : Env)
    (specification callable_name : String) (mw fw uo : List String)
    (hcache : env.cache = none)
    (hlenf : pyLen specification ≤ max_characters "gpt-4o-mini")
    (hlen : pyLen specification ≤ max_characters "gpt-4o")
    (hclear : pyStartsWith (o.respond 0) "UNCLEAR" = false)
    (h1rev : _review_safety o env
        [{ comment := specification, system_message := assess_specification,
           model := "gpt-4o-mini" },
         { comment := specification, system_message := copile_from_specification,
           model := "gpt-4o" }]
        (_clean_response (o.respond 1)) mw fw uo =
      (.ok (),
        [{ comment := specification, system_message := assess_specification,
           model := "gpt-4o-mini" },
         { comment := specification, system_message := copile_from_specification,
           model := "gpt-4o" },
         { comment := _clean_response (o.respond 1),
           system_message := check_for_safety_issues, model := "gpt-4o" }]))
    (h1exec : env.exec_load (_clean_response (o.respond 1)) = .fail)
    (h2rev : _review_safety o env
        [{ comment := specification, system_message := assess_specification,
           model := "gpt-4o-mini" },
         { comment := specification, system_message := copile_from_specification,
           model := "gpt-4o" },
         { comment := _clean_response (o.respond 1),
           system_message := check_for_safety_issues, model := "gpt-4o" },
         { comment := specification, system_message := copile_from_specification,
           model := "gpt-4o" }]
        (_clean_response (o.respond 3)) mw fw uo =
      (.ok (),
        [{ comment := specification, system_message := assess_specification,
           model := "gpt-4o-mini" },
         { comment := specification, system_message := copile_from_specification,
           model := "gpt-4o" },
         { comment := _clean_response (o.respond 1),
           system_message := check_for_safety_issues, model := "gpt-4o" },
         { comment := specification, system_message := copile_from_specification,
           model := "gpt-4o" },
         { comment := _clean_response (o.respond 3),
           system_message := check_for_safety_issues, model := "gpt-4o" }])) :
    (∀ f, env.exec_load (_clean_response (o.respond 3)) = .ok f →
      _copiler o env specification callable_name false mw fw uo =
        (.ok (some f),
         [{ comment := specification, system_message := assess_specification,
            model := "gpt-4o-mini" },
          { comment := specification, system_message := copile_from_specification,
            model := "gpt-4o" },
          { comment := _clean_response (o.respond 1),
            system_message := check_for_safety_issues, model := "gpt-4o" },
          { comment := specification, system_message := copile_from_specification,
            model := "gpt-4o" },
          { comment := _clean_response (o.respond 3),
            system_message := check_for_safety_issues, model := "gpt-4o" }],
         [_clean_response (o.respond 3)]) ∧
      count_queries copile_from_specification
        [{ comment := specification, system_message := assess_specification,
           model := "gpt-4o-mini" },
         { comment := specification, system_message := copile_from_specification,
           model := "gpt-4o" },
         { comment := _clean_response (o.respond 1),
           system_message := check_for_safety_issues, model := "gpt-4o" },
         { comment := specification, system_message := copile_from_specification,
           model := "gpt-4o" },
         { comment := _clean_response (o.respond 3),
           system_message := check_for_safety_issues, model := "gpt-4o" }] = 2) ∧
    (env.exec_load (_clean_response (o.respond 3)) = .fail →
      _copiler o env specification callable_name false mw fw uo =
        (.ok none,
         [{ comment := specification, system_message := assess_specification,
            model := "gpt-4o-mini" },
          { comment := specification, system_message := copile_from_specification,
            model := "gpt-4o" },
          { comment := _clean_response (o.respond 1),
            system_message := check_for_safety_issues, model := "gpt-4o" },
          { comment := specification, system_message := copile_from_specification,
            model := "gpt-4o" },
          { comment := _clean_response (o.respond 3),
            system_message := check_for_safety_issues, model := "gpt-4o" }], [])) := by
  have hc : (false || env.cache.isNone) = true := by rw [hcache]; rfl
  have hbody : ∀ (r : Except PyError (Option Callable) × List OracleQuery × List String),
      (_copiler_loop o env specification mw fw uo 2
        [{ comment := specification, system_message := assess_specification,
           model := "gpt-4o-mini" }]) = r →
      _copiler o env specification callable_name false mw fw uo = r := by
    intro r hr
    unfold _copiler
    rw [if_pos hc]
    rw [review_spec_clear o [] callable_name specification hlenf hclear]
    exact hr
  have hstep : _copiler_loop o env specification mw fw uo 2
      [{ comment := specification, system_message := assess_specification,
         model := "gpt-4o-mini" }] =
      (match env.exec_load (_clean_response (o.respond 3)) with
        | .ok f => (.ok (some f),
            [{ comment := specification, system_message := assess_specification,
               model := "gpt-4o-mini" },
             { comment := specification, system_message := copile_from_specification,
               model := "gpt-4o" },
             { comment := _clean_response (o.respond 1),
               system_message := check_for_safety_issues, model := "gpt-4o" },
             { comment := specification, system_message := copile_from_specification,
               model := "gpt-4o" },
             { comment := _clean_response (o.respond 3),
               system_message := check_for_safety_issues, model := "gpt-4o" }],
            [_clean_response (o.respond 3)])
        | .moduleNotFound m => (.error (.CopiledSourceCodeNeedsModule m),
            [{ comment := specification, system_message := assess_specification,
               model := "gpt-4o-mini" },
             { comment := specification, system_message := copile_from_specification,
               model := "gpt-4o" },
             { comment := _clean_response (o.respond 1),
               system_message := check_for_safety_issues, model := "gpt-4o" },
             { comment := specification, system_message := copile_from_specification,
               model := "gpt-4o" },
             { comment := _clean_response (o.respond 3),
               system_message := check_for_safety_issues, model := "gpt-4o" }], [])
        | .fail => (.ok none,
            [{ comment := specification, system_message := assess_specification,
               model := "gpt-4o-mini" },
             { comment := specification, system_message := copile_from_specification,
               model := "gpt-4o" },
             { comment := _clean_response (o.respond 1),
               system_message := check_for_safety_issues, model := "gpt-4o" },
             { comment := specification, system_message := copile_from_specification,
               model := "gpt-4o" },
             { comment := _clean_response (o.respond 3),
               system_message := check_for_safety_issues, model := "gpt-4o" }], [])) := by
    rw [loop_step_two o env specification mw fw uo _ hlen]
    simp only [List.cons_append, List.nil_append, List.length_cons, List.length_nil,
      Nat.zero_add]
    simp only [h1rev, h1exec]
    rw [loop_step_one o env specification mw fw uo _ hlen]
    simp only [List.cons_append, List.nil_append, List.length_cons, List.length_nil,
      Nat.zero_add]
    simp only [h2rev]
    rcases hx : env.exec_load (_clean_response (o.respond 3)) with f | m
    · simp only [hx]
    · simp only [hx]
    · simp only [hx]
      show _copiler_loop o env specification mw fw uo 0 _ = _
      rfl
  refine ⟨?_, ?_⟩
  · intro f hf
    refine ⟨hbody _ ?_, by rfl⟩
    rw [hstep, hf]
  · intro hf
    refine hbody _ ?_
    rw [hstep, hf]

set_option maxRecDepth 40000 in
/-- C4 counterexample: a syntactically invalid first candidate is not
retried — the parse error raised inside the safety gate's function scan
propagates out of the generation call after a single generation oracle
query. -/
theorem C4_counterexample :
    _copiler oracle_unparsable env_unparsable "spec" "f" false [] [] [] =
      (.error .ParseError,
       [{ comment := "spec", system_message := assess_specification,
          model := "gpt-4o-mini" },
        { comment := "spec", system_message := copile_from_specification,
          model := "gpt-4o" }],
       []) := by
  decide

set_option maxRecDepth 40000 in
/-- C4 witness: in the retry demo, attempt 1 passes review but fails to
load, attempt 2 succeeds; the call returns attempt 2's callable with
exactly two generation oracle queries in the log. -/
theorem C4_witness :
    _copiler oracle_retry env_retry "spec" "f" false [] [] [] =
      (.ok (some ⟨2⟩),
       [{ comment := "spec", system_message := assess_specification,
          model := "gpt-4o-mini" },
        { comment := "spec", system_message := copile_from_specification,
          model := "gpt-4o" },
        { comment := "cand1", system_message := check_for_safety_issues,
          model := "gpt-4o" },
        { comment := "spec", system_message := copile_from_specification,
          model := "gpt-4o" },
        { comment := "cand2", system_message := check_for_safety_issues,
          model := "gpt-4o" }],
       ["cand2"]) ∧
    count_queries copile_from_specification
      [{ comment := "spec", system_message := assess_specification,
         model := "gpt-4o-mini" },
       { comment := "spec", system_message := copile_from_specification,
         model := "gpt-4o" },
       { comment := "cand1", system_message := check_for_safety_issues,
         model := "gpt-4o" },
       { comment := "spec", system_message := copile_from_specification,
         model := "gpt-4o" },
       { comment := "cand2", system_message := check_for_safety_issues,
         model := "gpt-4o" }] = 2 := by
  have h := (C4_validity_failures_retried oracle_retry env_retry "spec" "f" [] [] []
    rfl (by decide) (by decide) (by decide) (by decide) (by decide) (by decide)).1
    ⟨2⟩ (by decide)
  exact ⟨h.1, h.2⟩

/-- C5 (amended): a cache hit without `force_copilation` returns the cached
callable as-is, makes no oracle call, skips the clarity check, generation,
and all safety checks, and writes nothing — so both invocations together
make only the first invocation's oracle round-trips. -/
theorem C5_cache_hit_skips_pipeline (o : Oracle) (env : Env)
    (specification callable_name : String) (mw fw uo : List String) (f : Callable)
    (hcache : env.cache = some f) :
    _copiler o env specification callable_name false mw fw uo =
      (.ok (some f), [], []) := by
  unfold _copiler
  rw [hcache]
  simp

set_option maxRecDepth 40000 in
/-- C5 counterexample: a fresh successful run makes three oracle round-trips
(clarity, generation, classification), so two invocations of the
orchestrator total three round-trips, not one. -/
theorem C5_counterexample :
    _copiler oracle_success env_fresh spec_demo "f" false [] [] [] =
      (.ok (some ⟨0⟩),
       [{ comment := spec_demo, system_message := assess_specification,
          model := "gpt-4o-mini" },
        { comment := spec_demo, system_message := copile_from_specification,
          model := "gpt-4o" },
        { comment := cand_demo, system_message := check_for_safety_issues,
          model := "gpt-4o" }],
       [cand_demo]) ∧
    _copiler oracle_success env_cached spec_demo "f" false [] [] [] =
      (.ok (some ⟨0⟩), [], []) ∧
    (_copiler oracle_success env_fresh spec_demo "f" false [] [] []).2.1.length +
      (_copiler oracle_success env_cached spec_demo "f" false [] [] []).2.1.length ≠ 1 := by
  refine ⟨success_run_eval, by decide, ?_⟩
  rw [success_run_eval]
  decide

/-- C5 witness: the second (cached) invocation of the demo returns the
cached callable with an empty oracle log and no cache write. -/
theorem C5_witness :
    _copiler oracle_success env_cached spec_demo "f" false [] [] [] =
      (.ok (some ⟨0⟩), [], []) :=
  C5_cache_hit_skips_pipeline oracle_success env_cached spec_demo "f" [] [] [] ⟨0⟩ rfl

/-- C6: a denylisted, non-whitelisted module name whose `import X` or
`from X import` text occurs in the source is reported by the module scan and
makes the gate raise `BlackListedModuleImportError` carrying the source and
a violating list containing it; a whitelisted name is never reported and
never occurs in such an error. -/
theorem C6_module_scan_and_gate (o : Oracle) (env : Env) (st : List OracleQuery)
    (S X : String) (mw fw uo : List String)
    (hX : X ∈ env.module_blacklist_file) :
    (X ∉ mw →
      (pyContains S ("import " ++ X) = true ∨
       pyContains S ("from " ++ X ++ " import") = true) →
      X ∈ check_for_blacklisted_modules_used S (net_list env.module_blacklist_file mw) ∧
      ∃ mods, _review_safety o env st S mw fw uo =
          (.error (.BlackListedModuleImportError S mods), st) ∧ X ∈ mods) ∧
    (X ∈ mw →
      X ∉ check_for_blacklisted_modules_used S (net_list env.module_blacklist_file mw) ∧
      ∀ mods, (_review_safety o env st S mw fw uo).1 =
          .error (.BlackListedModuleImportError S mods) → X ∉ mods) := by
  constructor
  · intro hnm himp
    have hnet : X ∈ net_list env.module_blacklist_file mw := by
      unfold net_list
      refine List.mem_filter.mpr ⟨hX, ?_⟩
      cases hcc : mw.contains X with
      | false => rfl
      | true => exact absurd (List.elem_iff.mp hcc) hnm
    have hscan : X ∈ check_for_blacklisted_modules_used S
        (net_list env.module_blacklist_file mw) := by
      unfold check_for_blacklisted_modules_used
      refine List.mem_filter.mpr ⟨hnet, ?_⟩
      rcases himp with h | h <;> simp [h]
    refine ⟨hscan, check_for_blacklisted_modules_used S
      (net_list env.module_blacklist_file mw),
      review_module_fail o env st S mw fw uo (List.ne_nil_of_mem hscan), hscan⟩
  · intro hwm
    have hnet : X ∉ net_list env.module_blacklist_file mw := by
      unfold net_list
      intro hmem
      have h2 := (List.mem_filter.mp hmem).2
      have h3 : mw.contains X = true := List.elem_iff.mpr hwm
      rw [h3] at h2
      simp at h2
    have hscan : X ∉ check_for_blacklisted_modules_used S
        (net_list env.module_blacklist_file mw) := by
      unfold check_for_blacklisted_modules_used
      intro hmem
      exact hnet (List.mem_filter.mp hmem).1
    refine ⟨hscan, ?_⟩
    intro mods hrev
    rw [review_module_error_inv o env st S mw fw uo mods hrev]
    exact hscan

/-- C6 witness: with denylist `os`, the source `import os` is reported and
the gate raises naming `os`; whitelisting `os` suppresses the report. -/
theorem C6_witness :
    ("os" ∈ check_for_blacklisted_modules_used "import os\n"
        (net_list env_fresh.module_blacklist_file []) ∧
      ∃ mods, _review_safety oracle_success env_fresh [] "import os\n" [] [] [] =
        (.error (.BlackListedModuleImportError "import os\n" mods), []) ∧
        "os" ∈ mods) ∧
    "os" ∉ check_for_blacklisted_modules_used "import os\n"
      (net_list env_fresh.module_blacklist_file ["os"]) := by
  constructor
  · exact (C6_module_scan_and_gate oracle_success env_fresh [] "import os\n" "os"
      [] [] [] (by decide)).1 (by decide) (Or.inl (by decide))
  · exact ((C6_module_scan_and_gate oracle_success env_fresh [] "import os\n" "os"
      ["os"] [] [] (by decide)).2 (by decide)).1

/-- C7 (amended): for every parsed source, the function scan returns exactly
the denylisted names occurring as the callee of a call expression whose
callee is a bare identifier (attribute callees are never reported, and
whitelisted names are excluded by the net denylist); once the module scan
has passed, the gate raises `BlackListedFunctionUseError` with that set when
it is non-empty. -/
theorem C7_function_scan_exact (o : Oracle) (env : Env) (st : List OracleQuery)
    (source : String) (mw fw uo : List String) (body : PyAstList)
    (hp : env.parse source = some (.Module body)) :
    (check_for_blacklisted_functions_used env.parse source
        (net_list env.function_blacklist_file fw) =
      .ok (findCallsNode (net_list env.function_blacklist_file fw) (.Module body))) ∧
    (∀ x, x ∈ findCallsNode (net_list env.function_blacklist_file fw) (.Module body) ↔
      (x ∈ allBareCalleeIdsL body ∧ x ∈ net_list env.function_blacklist_file fw)) ∧
    (check_for_blacklisted_modules_used source
        (net_list env.module_blacklist_file mw) = [] →
      findCallsNode (net_list env.function_blacklist_file fw) (.Module body) ≠ [] →
      _review_safety o env st source mw fw uo =
        (.error (.BlackListedFunctionUseError source
          (findCallsNode (net_list env.function_blacklist_file fw) (.Module body))),
         st)) := by
  have h1 : check_for_blacklisted_functions_used env.parse source
      (net_list env.function_blacklist_file fw) =
      .ok (findCallsNode (net_list env.function_blacklist_file fw) (.Module body)) := by
    unfold check_for_blacklisted_functions_used
    rw [hp]
  refine ⟨h1, ?_, ?_⟩
  · intro x
    rw [findCallsNode_Module]
    exact (findCalls_exact (net_list env.function_blacklist_file fw) x).2 body
  · intro hm hne
    exact review_fn_fail o env st source mw fw uo _ hm h1 hne

set_option maxRecDepth 8000 in
/-- C7 counterexample: a source that both imports a denylisted module and
directly calls a denylisted function has a non-empty function-scan set, yet
the gate raises `BlackListedModuleImportError`, never
`BlackListedFunctionUseError`. -/
theorem C7_counterexample :
    check_for_blacklisted_functions_used env_both.parse src_both
        (net_list env_both.function_blacklist_file []) = .ok ["open"] ∧
    _review_safety oracle_success env_both [] src_both [] [] [] =
      (.error (.BlackListedModuleImportError src_both ["os"]), []) ∧
    (∀ fns, (_review_safety oracle_success env_both [] src_both [] [] []).1 ≠
      .error (.BlackListedFunctionUseError src_both fns)) := by
  refine ⟨by decide, by decide, ?_⟩
  intro fns h
  have heval : (_review_safety oracle_success env_both [] src_both [] [] []).1 =
      .error (.BlackListedModuleImportError src_both ["os"]) := by decide
  rw [heval] at h
  simp at h

set_option maxRecDepth 8000 in
/-- C7 witness: with denylist `open`, `write`, the source
`open(x)` + `m.write(y)` is scanned to exactly `open` (the attribute call is
not reported) and the gate raises `BlackListedFunctionUseError` naming it. -/
theorem C7_witness :
    check_for_blacklisted_functions_used env_call.parse src_call
        (net_list env_call.function_blacklist_file []) = .ok ["open"] ∧
    "write" ∉ findCallsNode (net_list env_call.function_blacklist_file [])
      (.Module tree_call_body) ∧
    _review_safety oracle_success env_call [] src_call [] [] [] =
      (.error (.BlackListedFunctionUseError src_call ["open"]), []) := by
  have h := C7_function_scan_exact oracle_success env_call [] src_call [] [] []
    tree_call_body rfl
  refine ⟨h.1.trans (by decide), by decide, ?_⟩
  exact (h.2.2 rfl (by decide)).trans (by decide)

set_option maxRecDepth 8000 in
/-- C8: on a cache miss (or forced regeneration), a clarity-check response
beginning with `UNCLEAR` makes the call fail with
`SpecificationUnclearError` carrying the callable name and the full
response, with the clarity query as the only logged oracle call (so no
generation call was made); and on every fresh call, whatever the clarity
outcome, exactly one clarity query is logged (it sits outside the retry
loop). -/
theorem C8_unclear_aborts_generation (o : Oracle) (env : Env)
    (specification callable_name : String) (force_copilation : Bool)
    (mw fw uo : List String)
    (hfresh : force_copilation = true ∨ env.cache = none)
    (hlen : pyLen specification ≤ max_characters "gpt-4o-mini") :
    (pyStartsWith (o.respond 0) "UNCLEAR" = true →
      _copiler o env specification callable_name force_copilation mw fw uo =
        (.error (.SpecificationUnclearError callable_name (o.respond 0)),
         [{ comment := specification, system_message := assess_specification,
            model := "gpt-4o-mini" }], [])) ∧
    (count_queries assess_specification
      (_copiler o env specification callable_name force_copilation mw fw uo).2.1 = 1) := by
  have hc : (force_copilation || env.cache.isNone) = true := by
    rcases hfresh with hf | hn
    · rw [hf]; rfl
    · rw [hn]; simp
  constructor
  · intro hun
    unfold _copiler
    rw [if_pos hc]
    rw [review_spec_unclear o [] callable_name specification hlen hun]
    rfl
  · unfold _copiler
    rw [if_pos hc]
    by_cases hun : pyStartsWith (o.respond 0) "UNCLEAR" = true
    · rw [review_spec_unclear o [] callable_name specification hlen hun]
      rfl
    · rw [review_spec_clear o [] callable_name specification hlen
        (Bool.eq_false_iff.mpr hun)]
      show count_queries assess_specification
        (_copiler_loop o env specification mw fw uo 2
          [{ comment := specification, system_message := assess_specification,
             model := "gpt-4o-mini" }]).2.1 = 1
      obtain ⟨d, hd, hall⟩ := loop_log_extend o env specification mw fw uo 2
        [{ comment := specification, system_message := assess_specification,
           model := "gpt-4o-mini" }]
      rw [hd, count_queries_append]
      have h1 : count_queries assess_specification
          [{ comment := specification, system_message := assess_specification,
             model := "gpt-4o-mini" }] = 1 := rfl
      have h0 : count_queries assess_specification d = 0 := by
        apply count_queries_zero
        intro q hq
        rcases hall q hq with h | h <;> rw [h]
        · exact copile_ne_assess
        · exact safety_ne_assess
      rw [h1, h0]

set_option maxRecDepth 8000 in
/-- C8 witness: the demo `UNCLEAR` oracle makes the fresh call fail with the
full response recorded, after exactly the one clarity query. -/
theorem C8_witness :
    _copiler oracle_unclear env_fresh spec_demo "f" false [] [] [] =
      (.error (.SpecificationUnclearError "f" "UNCLEAR: too vague"),
       [{ comment := spec_demo, system_message := assess_specification,
          model := "gpt-4o-mini" }], []) ∧
    count_queries assess_specification
      (_copiler oracle_unclear env_fresh spec_demo "f" false [] [] []).2.1 = 1 := by
  have h := C8_unclear_aborts_generation oracle_unclear env_fresh spec_demo "f"
    false [] [] [] (Or.inr rfl) (by decide)
  exact ⟨h.1 (by decide), h.2⟩

/-- C9: once both static scans pass and the source fits the budget, the gate
passes iff splitting the classifier response on `", "` and removing the
caller's overrides and the `NONE` sentinel leaves nothing; otherwise it
raises `CopiledSourceDeemedUnsafeError` carrying exactly the remaining
labels. -/
theorem C9_semantic_label_subtraction (o : Oracle) (env : Env)
    (st : List OracleQuery) (source : String) (mw fw uo : List String)
    (hm : check_for_blacklisted_modules_used source
        (net_list env.module_blacklist_file mw) = [])
    (hf : check_for_blacklisted_functions_used env.parse source
        (net_list env.function_blacklist_file fw) = .ok [])
    (hlen : pyLen source ≤ max_characters "gpt-4o") :
    ((_review_safety o env st source mw fw uo).1 = .ok () ↔
      net_safety_issues (o.respond st.length) uo = []) ∧
    (net_safety_issues (o.respond st.length) uo ≠ [] →
      _review_safety o env st source mw fw uo =
        (.error (.CopiledSourceDeemedUnsafeError source
          (net_safety_issues (o.respond st.length) uo)),
         st ++ [{ comment := source, system_message := check_for_safety_issues,
                  model := "gpt-4o" }])) := by
  rw [review_semantic o env st source mw fw uo hm hf hlen]
  constructor
  · by_cases hnet : net_safety_issues (o.respond st.length) uo = [] <;> simp [hnet]
  · intro hnet
    simp [hnet]

/-- C9 witness: the classifier response `FILE_WRITE, NONE` with override
`FILE_WRITE` leaves no net issues and the gate passes. -/
theorem C9_witness :
    (_review_safety oracle_filewrite env_fresh [] "x = 1" [] [] ["FILE_WRITE"]).1 =
      .ok () ∧
    net_safety_issues "FILE_WRITE, NONE" ["FILE_WRITE"] = [] := by
  refine ⟨?_, by decide⟩
  exact (C9_semantic_label_subtraction oracle_filewrite env_fresh [] "x = 1"
    [] [] ["FILE_WRITE"] rfl rfl (by decide)).1.mpr (by decide)

/-- C10: the module scan is pure substring matching on the raw source text:
a denylisted, non-whitelisted name is reported iff `import <name>` or
`from <name> import` occurs anywhere in the text — including inside comments
or string literals and as a prefix of a longer module name. -/
theorem C10_module_scan_substring_semantics (source M : String)
    (file wl : List String) (hM : M ∈ file) (hnw : M ∉ wl) :
    M ∈ check_for_blacklisted_modules_used source (net_list file wl) ↔
      (pyContains source ("import " ++ M) = true ∨
       pyContains source ("from " ++ M ++ " import") = true) := by
  unfold check_for_blacklisted_modules_used
  rw [List.mem_filter]
  have hnet : M ∈ net_list file wl := by
    unfold net_list
    refine List.mem_filter.mpr ⟨hM, ?_⟩
    cases hcc : wl.contains M with
    | false => rfl
    | true => exact absurd (List.elem_iff.mp hcc) hnw
  simp [hnet]

/-- C10 witness: denylisted `os` is reported for `import osmodule` (prefix
match) and for the comment `# import os`. -/
theorem C10_witness :
    "os" ∈ check_for_blacklisted_modules_used "import osmodule" (net_list ["os"] []) ∧
    "os" ∈ check_for_blacklisted_modules_used "# import os" (net_list ["os"] []) := by
  constructor
  · exact (C10_module_scan_substring_semantics "import osmodule" "os" ["os"] []
      (by decide) (by decide)).mpr (Or.inl (by decide))
  · exact (C10_module_scan_substring_semantics "# import os" "os" ["os"] []
      (by decide) (by decide)).mpr (Or.inl (by decide))

end Copile
